import Mathlib

/-!
# Verification of the File_Converter repository

Shallow embedding of `src/converters.py` (classes `BaseFileConverter`,
`ImageFile`, `DocConverter`) and proofs about its validation, extension
resolution and conversion behaviour.

External collaborators (the MIME sniffer `magic`, the image library `PIL`
and the document converter `pypandoc`) are modelled as parameters: the
sniffer as a function from file path to media-type string, the image
decoder as a function from file path to an image value, and the pypandoc
call as a recorded delegation value.  Python exceptions are modelled by an
explicit result type `PyResult`.
-/

namespace FileConverter

/-! ## Python string and path primitives used by the source -/

/-- Python `str.lower()` (ASCII case mapping, which is all the source uses). -/
def pyLower (s : String) : String := ⟨s.data.map Char.toLower⟩

/-- Python `str.upper()` (ASCII case mapping). -/
def pyUpper (s : String) : String := ⟨s.data.map Char.toUpper⟩

/-- Python `str.lstrip(".")`: removes ALL leading dot characters. -/
def pyLstripDot (s : String) : String := ⟨s.data.dropWhile (fun c => c == '.')⟩

/-- Python `str.startswith(p)`. -/
def pyStartsWith (s p : String) : Bool := p.data.isPrefixOf s.data

/-- The suffix of a file name as computed by `pathlib` (`PurePath.suffix`):
the part from the last dot, unless that dot is the first character of the
name or there is no character after it. -/
def pySuffix (name : List Char) : List Char :=
  let t := name.reverse.takeWhile (fun c => !(c == '.'))
  if t.length + 1 < name.length ∧ t.length ≠ 0 then '.' :: t.reverse else []

/-- Python `pathlib.Path.with_suffix`: replace the suffix of the final path
component (the source always passes a new suffix starting with a dot). -/
def with_suffix (path suffix : String) : String :=
  let cs := path.data
  let name := (cs.reverse.takeWhile (fun c => !(c == '/'))).reverse
  let old := pySuffix name
  ⟨cs.take (cs.length - old.length) ++ suffix.data⟩

/-! ## Python exceptions raised by `converters.py` -/

/-- The exceptions the embedded code can raise.  The two `ValueError`s keep
the data interpolated into their message strings: the allowed MIME list
(`_validate_file_type`) and the offending extension together with the
comma-joined supported keys (`_validate_extension`). -/
inductive PyError where
  /-- `ValueError` from `_validate_file_type` (spec taxonomy: InputTypeError);
  the message enumerates the allowed media types. -/
  | valueErrorInputType (allowed : List String)
  /-- `ValueError` from `_validate_extension` (spec taxonomy:
  UnsupportedFormatError); the message shows the raw extension and
  enumerates the supported input tokens (the dict keys). -/
  | valueErrorUnsupportedFormat (extension : String) (supportedKeys : List String)
  /-- `RuntimeError` from `DocConverter.convert` when pypandoc is missing. -/
  | runtimeError (msg : String)
  /-- `ImportError` from a failed `import` statement. -/
  | importError (module : String)
deriving DecidableEq

/-- Result of running a piece of Python code: a raised exception or a value. -/
inductive PyResult (α : Type) where
  | raised (e : PyError)
  | returned (v : α)
deriving DecidableEq

/-- Functorial action on the returned value. -/
def PyResult.map (f : α → β) : PyResult α → PyResult β
  | .raised e => .raised e
  | .returned v => .returned (f v)

/-! ## `BaseFileConverter` shared validation helpers -/

/-- `BaseFileConverter._validate_file_type`, as a function of the class
attribute `MIME_TYPE` and the sniffed media type of the file
(`self.mime.from_file(file)`): loop over the allowed entries and return as
soon as the sniffed type starts with one of them, else raise `ValueError`
whose message enumerates the allowed types. -/
def validate_file_type (MIME_TYPE : List String) (file_type : String) : PyResult Unit :=
  if MIME_TYPE.any (fun allowed => pyStartsWith file_type allowed) then
    .returned ()
  else
    .raised (.valueErrorInputType MIME_TYPE)

/-- The normalization performed by `BaseFileConverter._validate_extension`:
`extension.lower().lstrip(".")`. -/
def normalize_ext (extension : String) : String := pyLstripDot (pyLower extension)

/-- `BaseFileConverter._validate_extension`, as a function of the class
attribute `SUPPORTED_FORMATS` (a dict embedded as an association list in
insertion order): normalize, look the token up, return the mapped value or
raise `ValueError` listing the supported keys. -/
def validate_extension (SUPPORTED_FORMATS : List (String × String)) (extension : String) :
    PyResult String :=
  let ext := normalize_ext extension
  match SUPPORTED_FORMATS.lookup ext with
  | some v => .returned v
  | none => .raised (.valueErrorUnsupportedFormat extension (SUPPORTED_FORMATS.map Prod.fst))

/-! ## The PIL image collaborator -/

/-- A PIL image value.  `raw mode pixels` is an image as decoded by
`Image.open` (the pixel payload is abstracted to a number); `convertedMode`
records an application of the library method `img.convert(mode)`. -/
inductive PILImage where
  | raw (mode : String) (pixels : Nat)
  | convertedMode (mode : String) (src : PILImage)
deriving DecidableEq

/-- The `img.mode` attribute. -/
def PILImage.mode : PILImage → String
  | .raw m _ => m
  | .convertedMode m _ => m

/-- The library method `img.convert(mode)`. -/
def PILImage.convert (img : PILImage) (m : String) : PILImage := .convertedMode m img

/-- A recorded call `img.save(output_path, format)`. -/
structure SaveCall where
  path : String
  format : String
  img : PILImage
deriving DecidableEq

/-- What a successful `ImageFile.convert` call produces: the returned output
path and the single `img.save` side effect it performed. -/
structure ConvertResult where
  returnValue : String
  save : SaveCall
deriving DecidableEq

/-! ## `ImageFile` -/

/-- The `ImageFile` instance state: `__init__` stores only `self.file`
(besides the sniffer handle, which is the external collaborator).  -/
structure ImageFile where
  file : String
deriving DecidableEq

namespace ImageFile

/-- Class attribute `ImageFile.MIME_TYPE`. -/
def MIME_TYPE : List String := ["image/"]

/-- Class attribute `ImageFile.SUPPORTED_FORMATS` (dict in insertion order). -/
def SUPPORTED_FORMATS : List (String × String) :=
  [("jpeg", ".jpg"), ("jpg", ".jpg"), ("png", ".png"), ("webp", ".webp"),
   ("bmp", ".bmp"), ("gif", ".gif"), ("pdf", ".pdf")]

/-- `ImageFile(file)`: `BaseFileConverter.__init__` sniffs the file, runs
`_validate_file_type`, and on success stores the file path.  `sniff` is the
external `magic` collaborator. -/
def init (sniff : String → String) (file : String) : PyResult ImageFile :=
  match validate_file_type MIME_TYPE (sniff file) with
  | .returned _ => .returned ⟨file⟩
  | .raised e => .raised e

/-- `ImageFile._convert_to_rgb`. -/
def convert_to_rgb (img : PILImage) : PILImage :=
  if (["RGBA", "LA", "P"] : List String).contains img.mode then
    img.convert "RGB"
  else
    img

/-- `ImageFile.convert(extension)`: open the image, validate the extension,
flatten the color mode when the resolved extension is `.jpg`, compute the
output path by suffix replacement, save, and return the output path.
`openImage` is the external `Image.open` collaborator. -/
def convert (openImage : String → PILImage) (self : ImageFile) (extension : String) :
    PyResult ConvertResult :=
  let img := openImage self.file
  match validate_extension SUPPORTED_FORMATS extension with
  | .raised e => .raised e
  | .returned dot_ext =>
    let img := if dot_ext == ".jpg" then convert_to_rgb img else img
    let output_path := with_suffix self.file dot_ext
    .returned { returnValue := output_path, save := ⟨output_path, pyUpper extension, img⟩ }

/-- `ImageFile.convert` as a state transformer on the instance: the method
body assigns to no attribute of `self`, so the post-call instance state is
the pre-call instance state. -/
def convertS (openImage : String → PILImage) (self : ImageFile) (extension : String) :
    PyResult (ConvertResult × ImageFile) :=
  (convert openImage self extension).map (fun r => (r, self))

/-- Run a sequence of `convert` calls on one instance, threading the
instance state (a raising call leaves the instance state as it was). -/
def runAll (openImage : String → PILImage) (self : ImageFile) (exts : List String) : ImageFile :=
  match exts with
  | [] => self
  | e :: rest =>
    match convertS openImage self e with
    | .returned (_, selfAfter) => runAll openImage selfAfter rest
    | .raised _ => runAll openImage self rest

end ImageFile

/-! ## `DocConverter` -/

/-- The `DocConverter` instance state set by its `__init__`. -/
structure DocConverter where
  file : String
  HAS_PYPANDOC : Bool
deriving DecidableEq

/-- A recorded delegation
`pypandoc.convert_file(self.file, extension, outputfile="output." + extension)`. -/
structure PandocCall where
  file : String
  toFormat : String
  outputfile : String
deriving DecidableEq

namespace DocConverter

/-- Class attribute `DocConverter.MIME_TYPE`, verbatim from the source
(including the concatenated entry on its fourth line). -/
def MIME_TYPE : List String :=
  ["application/pdf",
   "application/msword",
   "application/vnd.openxmlformats-officedocument.wordprocessingml.document",
   "text/plainapplication/rtf",
   "text/csv",
   "application/vnd.oasis.opendocument.text",
   "application/vnd.oasis.opendocument.spreadsheet",
   "application/vnd.oasis.opendocument.presentation",
   "application/vnd.ms-excel",
   "application/vnd.openxmlformats-officedocument.spreadsheetml.sheet"]

/-- Class attribute `DocConverter.SUPPORTED_FORMATS`: every key carries a
leading dot. -/
def SUPPORTED_FORMATS : List (String × String) :=
  [(".docx", "docx"), (".doc", "doc"), (".pdf", "pdf"),
   (".txt", "txt"), (".md", "md"), (".csv", "csv")]

/-- The module-level import statements of `converters.py` (lines 1-6):
`abc`, `pathlib`, `magic`, `pypandoc`, `PIL`.  If any of them is not
installed, importing the module itself raises `ImportError`, before any
class in it can be used. -/
def module_imports : List String := ["abc", "pathlib", "magic", "pypandoc", "PIL"]

/-- A single Python `import m` statement in an environment that says which
modules are installed. -/
def import_module (installed : String → Bool) (m : String) : PyResult Unit :=
  if installed m then .returned () else .raised (.importError m)

/-- Importing `converters.py`: the first missing module aborts the import. -/
def import_converters (installed : String → Bool) : PyResult Unit :=
  match module_imports.find? (fun m => !installed m) with
  | some m => .raised (.importError m)
  | none => .returned ()

/-- `DocConverter(file)`: the class lives in `converters.py`, whose
module-level `import pypandoc` must already have succeeded; then
`super().__init__` validates the sniffed file type; then the `__init__`
body runs `try: import pypandoc ... except ImportError:` and sets
`HAS_PYPANDOC` (printing install diagnostics in the except branch). -/
def init (installed : String → Bool) (sniff : String → String) (file : String) :
    PyResult DocConverter :=
  match import_converters installed with
  | .raised e => .raised e
  | .returned _ =>
    match validate_file_type MIME_TYPE (sniff file) with
    | .raised e => .raised e
    | .returned _ =>
      match import_module installed "pypandoc" with
      | .returned _ => .returned ⟨file, true⟩
      | .raised _ => .returned ⟨file, false⟩

/-- `DocConverter.convert(extension)`: raise `RuntimeError` when
`HAS_PYPANDOC` is false, else delegate the RAW extension string to
`pypandoc.convert_file`, naming the output file `"output." + extension`.
Note the body performs no call to `_validate_extension`. -/
def convert (self : DocConverter) (extension : String) : PyResult PandocCall :=
  if !self.HAS_PYPANDOC then
    .raised (.runtimeError "pypandoc not available, cannot convert document")
  else
    .returned ⟨self.file, extension, "output." ++ extension⟩

end DocConverter

/-! ## Spec-modelled resolver variant (for comparison only)

The spec (section 4.2) describes the normalization as stripping a SINGLE
leading dot; the source strips all leading dots.  The following definition
follows the spec wording, to be compared with `normalize_ext`. -/

/-- Modelled from the spec: section 4.2 names the ExtensionResolver
algorithm "lower-case, strip a single leading dot, look up in
SupportedFormatsTable".  The lookup itself is shared; this is the spec's
normalization step. -/
def spec_normalize_single_dot (extension : String) : String :=
  let low := pyLower extension
  match low.data with
  | '.' :: rest => ⟨rest⟩
  | _ => low

/-! ## File-system effect of a save -/

/-- A file system: path to saved content (format string and image). -/
def FileSystem := String → Option (String × PILImage)

/-- Applying an `img.save(path, format)` call: overwrite whatever is at the
target path. -/
def applySave (fs : FileSystem) (c : SaveCall) : FileSystem :=
  fun p => if p = c.path then some (c.format, c.img) else fs p

/-! ## Helper lemmas -/

/-- `Char.ofNat` on a valid code point reads back to the same number. -/
theorem char_toNat_ofNat_valid {n : Nat} (h : n.isValidChar) : (Char.ofNat n).toNat = n := by
  rw [Char.ofNat, dif_pos h]
  rfl

/-- Unfolding equation of `Char.toLower`. -/
theorem char_toLower_eq (c : Char) :
    c.toLower = if c.toNat ≥ 65 ∧ c.toNat ≤ 90 then Char.ofNat (c.toNat + 32) else c := rfl

/-- ASCII lower-casing is idempotent. -/
theorem char_toLower_idem (c : Char) : c.toLower.toLower = c.toLower := by
  by_cases h : c.toNat ≥ 65 ∧ c.toNat ≤ 90
  · have hv : Nat.isValidChar (c.toNat + 32) := Or.inl (by omega)
    rw [char_toLower_eq c, if_pos h, char_toLower_eq, char_toNat_ofNat_valid hv,
      if_neg (by omega)]
  · rw [char_toLower_eq c, if_neg h, char_toLower_eq c, if_neg h]

/-- Lower-casing a list of characters twice is the same as doing it once. -/
theorem map_toLower_idem (l : List Char) :
    (l.map Char.toLower).map Char.toLower = l.map Char.toLower := by
  induction l with
  | nil => rfl
  | cons a t ih => simp [List.map_cons, ih, char_toLower_idem]

/-- After stripping the leading dots, the first character (if any) is not a
dot. -/
theorem head_lstrip_ne_dot (l : List Char) :
    (l.dropWhile (fun c => c == '.')).head? ≠ some '.' := by
  induction l with
  | nil => simp
  | cons a t ih =>
    by_cases h : (a == '.') = true
    · rw [List.dropWhile_cons, if_pos h]
      exact ih
    · rw [List.dropWhile_cons, if_neg h]
      intro hc
      simp only [List.head?_cons, Option.some.injEq] at hc
      subst hc
      simp at h

/-- Looking a token that does not start with a dot up in a table whose keys
all start with a dot never succeeds. -/
theorem lookup_none_of_dotted_keys (tbl : List (String × String))
    (hk : ∀ kv ∈ tbl, kv.1.data.head? = some '.')
    (t : String) (ht : t.data.head? ≠ some '.') :
    tbl.lookup t = none := by
  induction tbl with
  | nil => rfl
  | cons kv rest ih =>
    obtain ⟨k, v⟩ := kv
    have hbeq : (t == k) = false := by
      rw [beq_eq_false_iff_ne]
      intro heq
      exact ht (by rw [heq]; exact hk (k, v) (by simp))
    rw [List.lookup, hbeq]
    exact ih (fun kv hkv => hk kv (by simp [hkv]))

/-- `ImageFile.convert` assigns to no attribute of the instance: the
post-call state returned by `convertS` is the pre-call state. -/
theorem convertS_state (openImage : String → PILImage) (self : ImageFile) (extension : String)
    (r : ConvertResult) (st' : ImageFile)
    (h : ImageFile.convertS openImage self extension = .returned (r, st')) : st' = self := by
  unfold ImageFile.convertS PyResult.map at h
  cases hc : ImageFile.convert openImage self extension with
  | raised e => rw [hc] at h; cases h
  | returned r0 =>
    rw [hc] at h
    injection h with h1
    injection h1 with h2 h3
    exact h3.symm

/-- Any sequence of `convert` calls leaves the instance state unchanged. -/
theorem runAll_preserves (openImage : String → PILImage) (exts : List String) :
    ∀ self : ImageFile, ImageFile.runAll openImage self exts = self := by
  induction exts with
  | nil => intro self; rfl
  | cons e rest ih =>
    intro self
    unfold ImageFile.runAll
    cases hc : ImageFile.convertS openImage self e with
    | raised err => exact ih self
    | returned pr =>
      obtain ⟨r0, st0⟩ := pr
      rw [convertS_state openImage self e r0 st0 hc]
      exact ih self

/-! ## Claims -/

/-- C1: the claim says `DocConverter.convert` first resolves the extension
through `_validate_extension` and raises the unsupported-format error for a
token absent from the table.  The code never calls `_validate_extension`:
with pypandoc present it delegates the raw token "tiff" to
`pypandoc.convert_file` (output file "output.tiff") although the resolver
would reject "tiff"; it also passes ".pdf" and "pdf" through differently,
contradicting the method docstring that both forms are supported. -/
theorem c1_doc_convert_skips_resolution :
    DocConverter.convert ⟨"notes.docx", true⟩ "tiff" =
      .returned ⟨"notes.docx", "tiff", "output.tiff"⟩ ∧
    validate_extension DocConverter.SUPPORTED_FORMATS "tiff" =
      .raised (.valueErrorUnsupportedFormat "tiff" [".docx", ".doc", ".pdf", ".txt", ".md", ".csv"]) ∧
    DocConverter.convert ⟨"notes.docx", true⟩ ".pdf" =
      .returned ⟨"notes.docx", ".pdf", "output..pdf"⟩ ∧
    DocConverter.convert ⟨"notes.docx", true⟩ "pdf" =
      .returned ⟨"notes.docx", "pdf", "output.pdf"⟩ := by
  refine ⟨by decide, by decide, by decide, by decide⟩

/-- C2: the claim says that with pypandoc missing a `DocConverter` still
constructs, flagged non-functional.  The module `converters.py` itself does
a top-level `import pypandoc` (line 5), so in an environment without
pypandoc the module import raises `ImportError` and no construction
succeeds; the graceful try/except inside `__init__` is unreachable, and
whenever construction does succeed the flag is necessarily `true`. -/
theorem c2_module_import_defeats_capability_probe :
    DocConverter.init (fun m => !(m == "pypandoc")) (fun _ => "application/pdf") "notes.pdf" =
      .raised (.importError "pypandoc") ∧
    DocConverter.init (fun _ => true) (fun _ => "application/pdf") "notes.pdf" =
      .returned ⟨"notes.pdf", true⟩ := by
  exact ⟨by decide, by decide⟩

/-- C3 counterexample: the source normalizes with `lstrip(".")`, which
strips ALL leading dots, not the single leading dot the claim states.  On
the input "..PNG" the code resolves to ".png" while the claimed
single-dot normalization yields the token ".png", which is not in the
image table and would be rejected. -/
theorem c3_single_dot_counterexample :
    normalize_ext "..PNG" = "png" ∧
    spec_normalize_single_dot "..PNG" = ".png" ∧
    normalize_ext "..PNG" ≠ spec_normalize_single_dot "..PNG" ∧
    validate_extension ImageFile.SUPPORTED_FORMATS "..PNG" = .returned ".png" ∧
    List.lookup (spec_normalize_single_dot "..PNG") ImageFile.SUPPORTED_FORMATS = none := by
  refine ⟨by decide, by decide, by decide, by decide, by decide⟩

/-- C3 (amended): normalization lower-cases and strips ALL leading dots,
so resolution is insensitive to a leading dot and to case, and for the
image converter "PNG", ".png" and "png" all resolve to ".png". -/
theorem c3_normalization_dot_and_case_insensitive :
    (∀ s : String, normalize_ext ("." ++ s) = normalize_ext s) ∧
    (∀ s : String, normalize_ext (pyLower s) = normalize_ext s) ∧
    validate_extension ImageFile.SUPPORTED_FORMATS "PNG" = .returned ".png" ∧
    validate_extension ImageFile.SUPPORTED_FORMATS ".png" = .returned ".png" ∧
    validate_extension ImageFile.SUPPORTED_FORMATS "png" = .returned ".png" := by
  refine ⟨?_, ?_, by decide, by decide, by decide⟩
  · intro s
    have hdata : ("." ++ s).data = '.' :: s.data := by
      rw [String.data_append]; rfl
    unfold normalize_ext pyLower pyLstripDot
    rw [hdata]
    simp only [List.map_cons]
    rw [show Char.toLower '.' = '.' from rfl]
    rw [List.dropWhile_cons, if_pos (by rfl)]
  · intro s
    have hlow : pyLower (pyLower s) = pyLower s := by
      unfold pyLower
      exact congrArg String.mk (map_toLower_idem s.data)
    unfold normalize_ext
    rw [hlow]

/-- C4: constructing an `ImageFile` raises the input-type `ValueError`
(carrying the allowed-type list) exactly when the sniffed media type does
not start with the allowed prefix "image/", and succeeds (performing no
conversion: construction only validates and stores the path) when it
does. -/
theorem c4_image_input_validation (sniff : String → String) (file : String) :
    (pyStartsWith (sniff file) "image/" = false →
        ImageFile.init sniff file = .raised (.valueErrorInputType ImageFile.MIME_TYPE)) ∧
    (pyStartsWith (sniff file) "image/" = true →
        ImageFile.init sniff file = .returned ⟨file⟩) := by
  constructor
  · intro h
    unfold ImageFile.init validate_file_type
    simp [ImageFile.MIME_TYPE, h]
  · intro h
    unfold ImageFile.init validate_file_type
    simp [ImageFile.MIME_TYPE, h]

/-- Witness for C4 at concrete sniffed types "text/plain" and "image/png". -/
theorem c4_image_input_validation_witness :
    pyStartsWith "text/plain" "image/" = false ∧
    ImageFile.init (fun _ => "text/plain") "doc.txt" =
      .raised (.valueErrorInputType ImageFile.MIME_TYPE) ∧
    pyStartsWith "image/png" "image/" = true ∧
    ImageFile.init (fun _ => "image/png") "photo.png" = .returned ⟨"photo.png"⟩ := by
  refine ⟨by decide, ?_, by decide, ?_⟩
  · exact (c4_image_input_validation (fun _ => "text/plain") "doc.txt").1 (by decide)
  · exact (c4_image_input_validation (fun _ => "image/png") "photo.png").2 (by decide)

/-- C5 counterexample: the claim says `DocConverter` file-type validation
accepts exactly the sniffed types EQUAL to one of its listed MIME strings.
The shared `_validate_file_type` matches by `startswith` for every
converter, so the sniffed type "application/pdfx", equal to no listed
string, is accepted. -/
theorem c5_exact_match_counterexample :
    validate_file_type DocConverter.MIME_TYPE "application/pdfx" = .returned () ∧
    "application/pdfx" ∉ DocConverter.MIME_TYPE ∧
    validate_file_type DocConverter.MIME_TYPE "text/plain" =
      .raised (.valueErrorInputType DocConverter.MIME_TYPE) := by
  refine ⟨by decide, by decide, by decide⟩

/-- C5 (amended): `DocConverter` stores full MIME strings but the shared
validation still matches by prefix: the sniffed type is accepted exactly
when it starts with one of the listed strings (equality is the practical
special case); anything else is rejected with the input-type error. -/
theorem c5_doc_mime_prefix_match (sniffed : String) :
    validate_file_type DocConverter.MIME_TYPE sniffed = .returned () ↔
      ∃ m ∈ DocConverter.MIME_TYPE, pyStartsWith sniffed m = true := by
  unfold validate_file_type
  by_cases h : DocConverter.MIME_TYPE.any (fun allowed => pyStartsWith sniffed allowed) = true
  · rw [if_pos h]
    simp only [true_iff]
    exact List.any_eq_true.mp h
  · rw [if_neg h]
    constructor
    · intro hc; cases hc
    · intro hex; exact absurd (List.any_eq_true.mpr hex) h

/-- C6: for every token the resolver accepts with canonical dotted
extension `dot_ext`, `ImageFile.convert` returns the source path with its
suffix replaced by `dot_ext`, saves to that same path, and passes the
upper-cased RAW input token (not the dotted canonical value) to the
encoder as the format selector. -/
theorem c6_output_path_and_format (openImage : String → PILImage)
    (file extension dot_ext : String)
    (h : validate_extension ImageFile.SUPPORTED_FORMATS extension = .returned dot_ext) :
    (ImageFile.convert openImage ⟨file⟩ extension).map
        (fun r => (r.returnValue, r.save.path, r.save.format)) =
      .returned (with_suffix file dot_ext, with_suffix file dot_ext, pyUpper extension) := by
  unfold ImageFile.convert
  rw [h]
  rfl

/-- Witness for C6: the spec scenario, source "photo.png", target "jpg",
output path "photo.jpg", encoder format "JPG". -/
theorem c6_output_path_and_format_witness :
    validate_extension ImageFile.SUPPORTED_FORMATS "jpg" = .returned ".jpg" ∧
    with_suffix "photo.png" ".jpg" = "photo.jpg" ∧
    pyUpper "jpg" = "JPG" ∧
    (ImageFile.convert (fun _ => PILImage.raw "RGBA" 0) ⟨"photo.png"⟩ "jpg").map
        (fun r => (r.returnValue, r.save.path, r.save.format)) =
      .returned ("photo.jpg", "photo.jpg", "JPG") := by
  refine ⟨by decide, by decide, by decide, ?_⟩
  have h := c6_output_path_and_format (fun _ => PILImage.raw "RGBA" 0) "photo.png" "jpg" ".jpg"
    (by decide)
  exact h.trans (by decide)

/-- C7: converting to a JPEG-family target (a token resolving to ".jpg"):
a source whose mode is one of RGBA, LA, P is first re-encoded via
`img.convert("RGB")` (so the saved image has mode "RGB" and no alpha), and
a source in any other mode (in particular plain three-channel "RGB") is
passed to the encoder unchanged. -/
theorem c7_jpeg_alpha_flatten (openImage : String → PILImage) (file extension : String)
    (h : validate_extension ImageFile.SUPPORTED_FORMATS extension = .returned ".jpg") :
    ((openImage file).mode ∈ (["RGBA", "LA", "P"] : List String) →
        (ImageFile.convert openImage ⟨file⟩ extension).map (fun r => r.save.img) =
          .returned ((openImage file).convert "RGB") ∧
        (ImageFile.convert openImage ⟨file⟩ extension).map (fun r => r.save.img.mode) =
          .returned "RGB") ∧
    ((openImage file).mode ∉ (["RGBA", "LA", "P"] : List String) →
        (ImageFile.convert openImage ⟨file⟩ extension).map (fun r => r.save.img) =
          .returned (openImage file)) := by
  constructor
  · intro hm
    have hc : (["RGBA", "LA", "P"] : List String).contains (openImage file).mode = true :=
      List.contains_iff_exists_mem_beq.mpr ⟨_, hm, beq_self_eq_true _⟩
    unfold ImageFile.convert ImageFile.convert_to_rgb
    rw [h]
    simp only [PyResult.map, hc, if_pos]
    exact ⟨rfl, rfl⟩
  · intro hm
    have hc : (["RGBA", "LA", "P"] : List String).contains (openImage file).mode = false := by
      cases hcc : (["RGBA", "LA", "P"] : List String).contains (openImage file).mode with
      | false => rfl
      | true =>
        obtain ⟨a, ha, hbeq⟩ := List.contains_iff_exists_mem_beq.mp hcc
        exact absurd (eq_of_beq hbeq ▸ ha) hm
    unfold ImageFile.convert ImageFile.convert_to_rgb
    rw [h]
    simp only [PyResult.map, hc, if_neg]
    rfl

/-- Witness for C7 at a mode-RGBA and a mode-RGB source. -/
theorem c7_jpeg_alpha_flatten_witness :
    (PILImage.raw "RGBA" 5).mode ∈ (["RGBA", "LA", "P"] : List String) ∧
    (ImageFile.convert (fun _ => PILImage.raw "RGBA" 5) ⟨"photo.png"⟩ "jpg").map
        (fun r => r.save.img) = .returned ((PILImage.raw "RGBA" 5).convert "RGB") ∧
    (PILImage.raw "RGB" 5).mode ∉ (["RGBA", "LA", "P"] : List String) ∧
    (ImageFile.convert (fun _ => PILImage.raw "RGB" 5) ⟨"photo.png"⟩ "jpg").map
        (fun r => r.save.img) = .returned (PILImage.raw "RGB" 5) := by
  refine ⟨by decide, ?_, by decide, ?_⟩
  · exact ((c7_jpeg_alpha_flatten (fun _ => PILImage.raw "RGBA" 5) "photo.png" "jpg"
      (by decide)).1 (by decide)).1
  · exact (c7_jpeg_alpha_flatten (fun _ => PILImage.raw "RGB" 5) "photo.png" "jpg"
      (by decide)).2 (by decide)

/-- C8: for EVERY input string, `_validate_extension` with
`DocConverter.SUPPORTED_FORMATS` raises the unsupported-format error:
normalization strips all leading dots, but every key of the table starts
with a dot, so the lookup can never succeed. -/
theorem c8_doc_resolution_always_fails (s : String) :
    validate_extension DocConverter.SUPPORTED_FORMATS s =
      .raised (.valueErrorUnsupportedFormat s (DocConverter.SUPPORTED_FORMATS.map Prod.fst)) := by
  have hl : DocConverter.SUPPORTED_FORMATS.lookup (normalize_ext s) = none := by
    apply lookup_none_of_dotted_keys
    · decide
    · exact head_lstrip_ne_dot (pyLower s).data
  unfold validate_extension
  simp only [hl]

/-- C9: a successful `convert` leaves the instance unchanged, so a second
call with the same extension returns the identical result (same output
path, same save); and replaying the save a second time on any file system
overwrites the first at the same path, leaving the file system as after a
single save. -/
theorem c9_repeat_convert_same_path_overwrite (openImage : String → PILImage)
    (self : ImageFile) (extension : String) (r : ConvertResult) (st' : ImageFile)
    (h : ImageFile.convertS openImage self extension = .returned (r, st')) :
    st' = self ∧
    ImageFile.convertS openImage st' extension = .returned (r, st') ∧
    ∀ fs : FileSystem, applySave (applySave fs r.save) r.save = applySave fs r.save := by
  have hst : st' = self := convertS_state openImage self extension r st' h
  subst hst
  refine ⟨rfl, h, ?_⟩
  intro fs
  funext p
  by_cases hp : p = r.save.path <;> simp [applySave, hp]

/-- Witness for C9: two conversions of "photo.png" to "jpg". -/
theorem c9_repeat_convert_same_path_overwrite_witness :
    ImageFile.convertS (fun _ => PILImage.raw "RGB" 7) ⟨"photo.png"⟩ "jpg" =
      .returned (⟨"photo.jpg", ⟨"photo.jpg", "JPG", PILImage.raw "RGB" 7⟩⟩, ⟨"photo.png"⟩) ∧
    applySave (applySave (fun _ => none) ⟨"photo.jpg", "JPG", PILImage.raw "RGB" 7⟩)
        ⟨"photo.jpg", "JPG", PILImage.raw "RGB" 7⟩ =
      applySave (fun _ => none) ⟨"photo.jpg", "JPG", PILImage.raw "RGB" 7⟩ := by
  refine ⟨by decide, ?_⟩
  exact ((c9_repeat_convert_same_path_overwrite (fun _ => PILImage.raw "RGB" 7) ⟨"photo.png"⟩
    "jpg" ⟨"photo.jpg", ⟨"photo.jpg", "JPG", PILImage.raw "RGB" 7⟩⟩ ⟨"photo.png"⟩
    (by decide)).2).2 (fun _ => none)

/-- C10: an instance is bound to one source file for its lifetime: the
constructor stores exactly the given path, and no sequence of `convert`
calls changes the bound path. -/
theorem c10_instance_file_binding (sniff : String → String) (openImage : String → PILImage)
    (file : String) (exts : List String) (self : ImageFile)
    (h : ImageFile.init sniff file = .returned self) :
    self.file = file ∧ (ImageFile.runAll openImage self exts).file = file := by
  have hself : self = ⟨file⟩ := by
    unfold ImageFile.init at h
    cases hv : validate_file_type ImageFile.MIME_TYPE (sniff file) with
    | raised e => rw [hv] at h; cases h
    | returned u => rw [hv] at h; injection h with h1; exact h1.symm
  subst hself
  exact ⟨rfl, by rw [runAll_preserves]⟩

/-- Witness for C10: "cat.png" through three conversion calls. -/
theorem c10_instance_file_binding_witness :
    ImageFile.init (fun _ => "image/png") "cat.png" = .returned ⟨"cat.png"⟩ ∧
    (ImageFile.runAll (fun _ => PILImage.raw "RGBA" 0) ⟨"cat.png"⟩ ["jpg", "png", "tiff"]).file =
      "cat.png" := by
  refine ⟨by decide, ?_⟩
  exact (c10_instance_file_binding (fun _ => "image/png") (fun _ => PILImage.raw "RGBA" 0)
    "cat.png" ["jpg", "png", "tiff"] ⟨"cat.png"⟩ (by decide)).2

end FileConverter
